import Mathlib

/-!
Shallow embedding of the dataset-synchronization and streaming-batch data
pipeline of the Bicep-ML repository, together with theorems settling the
specification claims about it.

The embedded code lives in two scripts:
* `src/cnn/ml-code/training.py` — the remote-streaming variant: the
  `AzureImageDataGenerator` batch provider, the `get_vm_size` metadata lookup,
  the class-weight computation and the 0.8 ratio-slice train/validation split;
* `src/cloud/vm/gpu/training/training.py` — the local-archive variant: the
  `prepare_dataset` archive synchronizer and the same class-weight computation.

External collaborators (Azure blob storage, the local filesystem, the numpy
random generator, the instance-metadata HTTP endpoint) are modelled as explicit
inputs: observed directory counts, listed blob names, an arbitrary permutation
standing for a shuffle outcome, and an abstract HTTP response.  Python floats
are modelled as exact rationals.  Python exceptions (`raise`, `SystemExit`)
are modelled with `Except`.
-/

namespace BicepML

/-! ## Batch provider: `AzureImageDataGenerator` (src/cnn/ml-code/training.py) -/

/-- State of an `AzureImageDataGenerator`: the blob-name list, the configured
batch size, the shuffle flag and the internal index array `self.indexes`
(a `numpy` integer array in the source, a `List Nat` here).  `num_samples`
is `image_paths.length` and is not stored separately. -/
structure AzureImageDataGenerator where
  image_paths : List String
  batch_size : Nat
  shuffle : Bool
  indexes : List Nat
  deriving Repr, DecidableEq

/-- Embeds the label expression of `__getitem__`
(`1 if 'fire' in p else 0`, line 131): label 1 exactly when the string
`"fire"` occurs as a contiguous substring of the path. -/
def path_label (p : String) : Nat :=
  if "fire".data <:+: p.data then 1 else 0

/-- Embeds `on_epoch_end` (lines 134-136): when `shuffle` is set,
`np.random.shuffle(self.indexes)` replaces the index array by a permutation
of itself; the concrete outcome `sigma` of the random generator is passed in
as an argument (theorems constrain it to be a permutation of the old array).
When `shuffle` is not set the call does nothing. -/
def AzureImageDataGenerator.on_epoch_end (g : AzureImageDataGenerator)
    (sigma : List Nat) : AzureImageDataGenerator :=
  if g.shuffle then { g with indexes := sigma } else g

/-- Embeds `__init__` (lines 115-121): the index array starts as
`np.arange(num_samples)` and `on_epoch_end()` is invoked once, so a shuffling
generator is already shuffled at construction (`sigma` is that first shuffle
outcome; it is ignored when `shuffle` is false). -/
def AzureImageDataGenerator.init (image_paths : List String) (batch_size : Nat)
    (shuffle : Bool) (sigma : List Nat) : AzureImageDataGenerator :=
  AzureImageDataGenerator.on_epoch_end
    { image_paths := image_paths, batch_size := batch_size, shuffle := shuffle,
      indexes := List.range image_paths.length } sigma

/-- Embeds `__len__` (lines 122-124):
`int(np.floor(self.num_samples / self.batch_size))`, i.e. the floor of the
true quotient, which on naturals is `Nat` division. -/
def AzureImageDataGenerator.len (g : AzureImageDataGenerator) : Nat :=
  g.image_paths.length / g.batch_size

/-- The index slice `self.indexes[index*batch_size : (index+1)*batch_size]`
taken by `__getitem__` (line 128).  Python/numpy slicing clamps at the end of
the array, exactly as `drop`/`take` do. -/
def AzureImageDataGenerator.batchIndexes (g : AzureImageDataGenerator)
    (index : Nat) : List Nat :=
  (g.indexes.drop (index * g.batch_size)).take g.batch_size

/-- Embeds `__getitem__` (lines 126-132).  It returns the batch paths (the
arguments handed to the opaque image loader `load_image_from_azure`) and the
labels `[1 if 'fire' in p else 0 for p in batch_paths]`.  `image_paths[i]`
is total in the embedding (`getD` with a dummy default); every index drawn
from the internal array is in range under the permutation invariant. -/
def AzureImageDataGenerator.getitem (g : AzureImageDataGenerator)
    (index : Nat) : List String × List Nat :=
  let batch_paths := (g.batchIndexes index).map (fun i => g.image_paths.getD i "")
  (batch_paths, batch_paths.map path_label)

/-! ## Class weights (src/cnn/ml-code/training.py lines 213-224,
src/cloud/vm/gpu/training/training.py lines 207-218) -/

/-- Embeds the class-weight computation: the guard
`if num_fire_images == 0 or num_nofire_images == 0: raise ValueError(...)`
followed by
`weight_for_fire = (1 / num_fire_images) * (total_images) / 2.0`,
`weight_for_nofire = (1 / num_nofire_images) * (total_images) / 2.0`,
`class_weights = {0: weight_for_nofire, 1: weight_for_fire}`.
The dict is the pair (entry for key 0, entry for key 1); float arithmetic is
modelled as exact rational arithmetic. -/
def class_weights (num_fire_images num_nofire_images : Nat) :
    Except String (ℚ × ℚ) :=
  let total_images := num_fire_images + num_nofire_images
  if num_fire_images = 0 ∨ num_nofire_images = 0 then
    Except.error
      "One of the classes (fire or nofire) has zero images. Cannot compute class weights."
  else
    let weight_for_fire : ℚ := 1 / (num_fire_images : ℚ) * (total_images : ℚ) / 2
    let weight_for_nofire : ℚ := 1 / (num_nofire_images : ℚ) * (total_images : ℚ) / 2
    Except.ok (weight_for_nofire, weight_for_fire)

/-! ## Ratio-slice split (src/cnn/ml-code/training.py lines 232-238) -/

/-- Embeds the per-class 0.8 ratio slice
`items[:int(0.8 * len(items))]` / `items[int(0.8 * len(items)):]`
(applied in the source to `fire_images` and to `nofire_images`).
`int(0.8 * len(items))` is the floor of the exact product, `4 * n / 5`
in `Nat` arithmetic. -/
def ratio_slice_split (items : List String) : List String × List String :=
  let k := 4 * items.length / 5
  (items.take k, items.drop k)

/-! ## VM-size lookup (src/cnn/ml-code/training.py lines 163-177) -/

/-- Outcome of the `requests.get` call against the instance-metadata
endpoint: either a raised `requests.exceptions.RequestException`, or a
response carrying a status code and the optional `"size"` field of its JSON
body. -/
inductive MetadataResponse where
  | failure : MetadataResponse
  | response (status_code : Nat) (size : Option String) : MetadataResponse
  deriving Repr, DecidableEq

/-- Embeds `get_vm_size`: on a 200 response it returns
`response.json().get("size", "unknown_size")`; a non-200 response falls
through the `if`, and a `RequestException` is caught and logged; both paths
reach the trailing `return "unknown_size"`. -/
def get_vm_size (r : MetadataResponse) : String :=
  match r with
  | .response status_code size =>
      if status_code = 200 then size.getD "unknown_size" else "unknown_size"
  | .failure => "unknown_size"

/-! ## Archive synchronizer: `prepare_dataset`
(src/cloud/vm/gpu/training/training.py lines 92-150) -/

/-- The filesystem facts `prepare_dataset` observes: the file counts of the
two class directories at the initial inspection, and the counts the same
directories would show after the archive has been downloaded and extracted
over them.  Only the first pair is read when no download happens. -/
structure DatasetEnv where
  fire_count : Nat
  nofire_count : Nat
  fire_count_after_extract : Nat
  nofire_count_after_extract : Nat
  deriving Repr, DecidableEq

/-- Embeds `prepare_dataset`: inspect both class directories; if either count
is zero, download the archive blob (one network transfer, counted in the
first component) and extract it, then re-inspect; if either count is still
zero, `raise SystemExit(...)`; otherwise return the `imageNumber` table
(fire count, nofire count).  When both initial counts are non-zero nothing
is downloaded and the initial counts are returned. -/
def prepare_dataset (env : DatasetEnv) : Nat × Except String (Nat × Nat) :=
  if env.fire_count = 0 ∨ env.nofire_count = 0 then
    if env.fire_count_after_extract = 0 ∨ env.nofire_count_after_extract = 0 then
      (1, Except.error "No images found after extraction. Exiting.")
    else
      (1, Except.ok (env.fire_count_after_extract, env.nofire_count_after_extract))
  else
    (0, Except.ok (env.fire_count, env.nofire_count))

/-! ## Concrete fixtures used by witnesses -/

/-- A ten-element, duplicate-free path list. -/
def sample_paths : List String :=
  ["p0", "p1", "p2", "p3", "p4", "p5", "p6", "p7", "p8", "p9"]

/-- A hundred-element blob-name list (the configuration of the Batch Provider
length property: 100 items, batch size 32). -/
def hundred_paths : List String := List.replicate 100 "fire/img.jpg"

/-! ## Claims -/

/-- C1: the batch provider labels with `1 if 'fire' in p else 0`, so an item
whose key lies under the `nofire` directory receives label 1, not 0: the
string `"fire"` is a contiguous substring of `"nofire"`.  This theorem
evaluates the code at the failing input `"nofire/img1.jpg"`: the claim (and
the evident intent of a binary fire vs no-fire classifier) requires label 0
there, but the code produces 1. -/
theorem nofire_item_gets_fire_label :
    path_label "nofire/img1.jpg" = 1 ∧
    ((AzureImageDataGenerator.init ["nofire/img1.jpg"] 1 false []).getitem 0).2 = [1] := by
  constructor <;> decide

/-- C5: for strictly positive class cardinalities the computed class weights
are exactly `total / (2 * count)` for each class, with no smoothing term:
the dict entry for key 1 (fire) is `(fire + nofire) / (2 * fire)` and the
entry for key 0 (no-fire) is `(fire + nofire) / (2 * nofire)`. -/
theorem class_weights_formula (a b : Nat) (ha : 0 < a) (hb : 0 < b) :
    class_weights a b =
      Except.ok (((a : ℚ) + b) / (2 * b), ((a : ℚ) + b) / (2 * a)) := by
  have ha' : (a : ℚ) ≠ 0 := Nat.cast_ne_zero.mpr ha.ne'
  have hb' : (b : ℚ) ≠ 0 := Nat.cast_ne_zero.mpr hb.ne'
  unfold class_weights
  rw [if_neg (by omega)]
  have h1 : 1 / (a : ℚ) * ((a : ℚ) + b) / 2 = ((a : ℚ) + b) / (2 * a) := by
    rw [one_div_mul_eq_div, div_div, mul_comm (a : ℚ) 2]
  have h2 : 1 / (b : ℚ) * ((a : ℚ) + b) / 2 = ((a : ℚ) + b) / (2 * b) := by
    rw [one_div_mul_eq_div, div_div, mul_comm (b : ℚ) 2]
  simp only [Nat.cast_add, h1, h2]

/-- C5 witness: counts 1 (fire) and 3 (no-fire) give weight 2 for the fire
class and 2/3 for the no-fire class. -/
theorem class_weights_formula_witness :
    class_weights 1 3 = Except.ok ((2 : ℚ) / 3, 2) := by
  rw [class_weights_formula 1 3 (by decide) (by decide)]
  norm_num

/-- C6: the class-weight computation fails with the empty-class error
whenever either class cardinality is zero; no weights are returned. -/
theorem class_weights_empty_class (a b : Nat) (h : a = 0 ∨ b = 0) :
    class_weights a b = Except.error
      "One of the classes (fire or nofire) has zero images. Cannot compute class weights." := by
  unfold class_weights
  rw [if_pos h]

/-- C6 witness: a zero fire count makes the computation fail. -/
theorem class_weights_empty_class_witness :
    class_weights 0 5 = Except.error
      "One of the classes (fire or nofire) has zero images. Cannot compute class weights." :=
  class_weights_empty_class 0 5 (Or.inl rfl)

/-- C9: for strictly positive class cardinalities the computed weights
satisfy the balance identity: `weight_fire * num_fire = total / 2` and
`weight_nofire * num_nofire = total / 2`, so each class contributes exactly
half of the total weighted mass. -/
theorem class_weights_balance (a b : Nat) (ha : 0 < a) (hb : 0 < b) :
    (class_weights a b).map (fun w => (w.2 * (a : ℚ), w.1 * (b : ℚ))) =
      Except.ok ((((a : ℚ) + b) / 2, ((a : ℚ) + b) / 2)) := by
  have ha' : (a : ℚ) ≠ 0 := Nat.cast_ne_zero.mpr ha.ne'
  have hb' : (b : ℚ) ≠ 0 := Nat.cast_ne_zero.mpr hb.ne'
  rw [class_weights_formula a b ha hb]
  simp only [Except.map, Prod.mk.injEq, Except.ok.injEq]
  constructor
  · rw [div_mul_eq_mul_div, mul_comm 2 (a : ℚ), ← div_div,
      mul_div_assoc, div_self ha', mul_one]
  · rw [div_mul_eq_mul_div, mul_comm 2 (b : ℚ), ← div_div,
      mul_div_assoc, div_self hb', mul_one]

/-- C9 witness: counts 2 and 6 give weighted masses 4 and 4, each half of
the total 8. -/
theorem class_weights_balance_witness :
    (class_weights 2 6).map (fun w => (w.2 * ((2 : Nat) : ℚ), w.1 * ((6 : Nat) : ℚ))) =
      Except.ok ((4 : ℚ), (4 : ℚ)) := by
  rw [class_weights_balance 2 6 (by decide) (by decide)]
  norm_num

/-- C7: the 0.8 ratio slice puts the first `floor(0.8 * len)` items in the
training part and the rest in the validation part; their concatenation
recovers the input exactly (no duplicates or omissions), and on a
duplicate-free input the two parts are disjoint. -/
theorem ratio_slice_split_spec (items : List String) :
    (ratio_slice_split items).1 ++ (ratio_slice_split items).2 = items ∧
    (ratio_slice_split items).1.length = 4 * items.length / 5 ∧
    (items.Nodup →
      (ratio_slice_split items).1.Disjoint (ratio_slice_split items).2) := by
  have hcat : (ratio_slice_split items).1 ++ (ratio_slice_split items).2 = items :=
    List.take_append_drop _ _
  refine ⟨hcat, ?_, ?_⟩
  · have hk : 4 * items.length / 5 ≤ items.length := by omega
    simp only [ratio_slice_split, List.length_take]
    exact Nat.min_eq_left hk
  · intro hnd
    have hnd2 : ((ratio_slice_split items).1 ++ (ratio_slice_split items).2).Nodup := by
      rw [hcat]; exact hnd
    exact List.disjoint_of_nodup_append hnd2

/-- C7 witness: for the ten-element duplicate-free list, the training part
has 8 items, the validation part 2, the concatenation is the input and the
parts are disjoint. -/
theorem ratio_slice_split_spec_witness :
    (ratio_slice_split sample_paths).1.length = 8 ∧
    (ratio_slice_split sample_paths).1 ++ (ratio_slice_split sample_paths).2 = sample_paths ∧
    (ratio_slice_split sample_paths).1.Disjoint (ratio_slice_split sample_paths).2 := by
  obtain ⟨h1, h2, h3⟩ := ratio_slice_split_spec sample_paths
  exact ⟨h2, h1, h3 (by decide)⟩

/-- C8: `get_vm_size` never raises: a request exception or any non-200
status yields the sentinel `"unknown_size"`, and a 200 response yields the
reported size. -/
theorem get_vm_size_fallback :
    get_vm_size MetadataResponse.failure = "unknown_size" ∧
    (∀ sc size, sc ≠ 200 →
      get_vm_size (MetadataResponse.response sc size) = "unknown_size") ∧
    (∀ s, get_vm_size (MetadataResponse.response 200 (some s)) = s) := by
  refine ⟨rfl, ?_, fun s => rfl⟩
  intro sc size h
  simp [get_vm_size, h]

/-- C8 witness: a 404 response and a 503 response both fall back to the
sentinel. -/
theorem get_vm_size_fallback_witness :
    get_vm_size (MetadataResponse.response 404 none) = "unknown_size" ∧
    get_vm_size (MetadataResponse.response 503 (some "Standard_NC6")) = "unknown_size" :=
  ⟨get_vm_size_fallback.2.1 404 none (by decide),
   get_vm_size_fallback.2.1 503 (some "Standard_NC6") (by decide)⟩

/-- C3: `prepare_dataset` downloads the archive exactly when at least one
initial class count is zero; when both are non-zero it returns the initial
counts with zero network transfers. -/
theorem prepare_dataset_download_iff (env : DatasetEnv) :
    ((prepare_dataset env).1 = 1 ↔ env.fire_count = 0 ∨ env.nofire_count = 0) ∧
    (env.fire_count ≠ 0 → env.nofire_count ≠ 0 →
      prepare_dataset env = (0, Except.ok (env.fire_count, env.nofire_count))) := by
  unfold prepare_dataset
  by_cases h : env.fire_count = 0 ∨ env.nofire_count = 0
  · rw [if_pos h]
    refine ⟨?_, ?_⟩
    · by_cases h2 : env.fire_count_after_extract = 0 ∨ env.nofire_count_after_extract = 0
      · rw [if_pos h2]; simpa using h
      · rw [if_neg h2]; simpa using h
    · intro h1 h2
      exact absurd h (by tauto)
  · rw [if_neg h]
    refine ⟨?_, fun _ _ => rfl⟩
    simp only [show (0 : Nat) ≠ 1 by decide]
    constructor
    · intro hc; exact absurd hc (by decide)
    · intro hc; exact absurd hc h

/-- C3 witness: with both class directories populated (counts 7 and 5) the
synchronizer performs no network transfer and returns the counts. -/
theorem prepare_dataset_download_iff_witness :
    prepare_dataset ⟨7, 5, 0, 0⟩ = (0, Except.ok (7, 5)) :=
  (prepare_dataset_download_iff ⟨7, 5, 0, 0⟩).2 (by decide) (by decide)

/-- C4: when the download path was taken and either class directory is still
empty after extraction, `prepare_dataset` fails with the fatal
`SystemExit` error and never returns counts. -/
theorem prepare_dataset_fatal_after_extract (env : DatasetEnv)
    (hdl : env.fire_count = 0 ∨ env.nofire_count = 0)
    (hz : env.fire_count_after_extract = 0 ∨ env.nofire_count_after_extract = 0) :
    (prepare_dataset env).2 = Except.error "No images found after extraction. Exiting." := by
  unfold prepare_dataset
  rw [if_pos hdl, if_pos hz]

/-- C4 witness: the fire directory is empty before and after extraction while
the no-fire directory ends up populated with 7 files; the run still fails. -/
theorem prepare_dataset_fatal_after_extract_witness :
    (prepare_dataset ⟨0, 5, 0, 7⟩).2 =
      Except.error "No images found after extraction. Exiting." :=
  prepare_dataset_fatal_after_extract ⟨0, 5, 0, 7⟩ (Or.inl rfl) (Or.inl rfl)

/-- C2 counterexample: with 100 items and batch size 32 the provider reports
`length() = 3`, but `__getitem__(3)` is not refused: Python slicing clamps at
the end of the index array, so the call returns the trailing 4-item batch.
The claim that an index `>= length()` is "out of range / refused rather than
returning a batch" is therefore false at this input. -/
theorem getitem_past_length_returns_batch :
    (AzureImageDataGenerator.init hundred_paths 32 false []).len = 3 ∧
    ((AzureImageDataGenerator.init hundred_paths 32 false []).getitem 3).1.length = 4 := by
  constructor <;> decide

/-- C2 amended: `length()` equals `floor(num_items / batch_size)`, and a call
to `__getitem__` with any index at or past `length()` returns the trailing
remainder items (`num_items - index * batch_size` of them, an empty batch
once the slice start passes the end) via clamped slicing, rather than being
refused. -/
theorem len_floor_and_trailing_batch (paths : List String) (bs : Nat)
    (hbs : 0 < bs) (i : Nat)
    (hi : (AzureImageDataGenerator.init paths bs false []).len ≤ i) :
    (AzureImageDataGenerator.init paths bs false []).len = paths.length / bs ∧
    ((AzureImageDataGenerator.init paths bs false []).getitem i).1.length
      = paths.length - i * bs := by
  have hidx : (AzureImageDataGenerator.init paths bs false []).indexes
      = List.range paths.length := by
    simp [AzureImageDataGenerator.init, AzureImageDataGenerator.on_epoch_end]
  refine ⟨rfl, ?_⟩
  have hi' : paths.length / bs ≤ i := hi
  have key : paths.length - i * bs ≤ bs := by
    have hle : bs * (paths.length / bs) ≤ bs * i := Nat.mul_le_mul_left bs hi'
    have hq : bs * (paths.length / bs) + paths.length % bs = paths.length :=
      Nat.div_add_mod _ _
    have hmod : paths.length % bs < bs := Nat.mod_lt _ hbs
    have hcomm : i * bs = bs * i := Nat.mul_comm i bs
    omega
  simp only [AzureImageDataGenerator.getitem, AzureImageDataGenerator.batchIndexes, hidx,
    List.length_map, List.length_take, List.length_drop, List.length_range]
  exact Nat.min_eq_right key

/-- C2 amended witness: for 100 items and batch size 32, `length()` is 3 and
`__getitem__(3)` yields the 4 trailing items. -/
theorem len_floor_and_trailing_batch_witness :
    (AzureImageDataGenerator.init hundred_paths 32 false []).len
      = hundred_paths.length / 32 ∧
    ((AzureImageDataGenerator.init hundred_paths 32 false []).getitem 3).1.length
      = hundred_paths.length - 3 * 32 :=
  len_floor_and_trailing_batch hundred_paths 32 (by decide) 3 (by decide)

/-! ## Helper lemmas for the batch-coverage invariant -/

/-- Concatenating the first `k` consecutive `bs`-sized slices of a list gives
its first `k * bs` elements. -/
theorem range_flatMap_slices {α : Type} (l : List α) (bs : Nat) :
    ∀ k : Nat,
      (List.range k).flatMap (fun i => (l.drop (i * bs)).take bs) = l.take (k * bs)
  | 0 => by simp
  | (k + 1) => by
    rw [List.range_succ, List.flatMap_append, range_flatMap_slices l bs k]
    simp only [List.flatMap_cons, List.flatMap_nil, List.append_nil]
    rw [Nat.succ_mul, List.take_add]

/-- Two distinct `bs`-sized slices of a duplicate-free list share no
element. -/
theorem slices_disjoint_of_nodup {l : List Nat} (hl : l.Nodup) (bs : Nat)
    {i j : Nat} (hij : i < j) :
    ∀ x, x ∈ (l.drop (i * bs)).take bs → x ∈ (l.drop (j * bs)).take bs → False := by
  intro x hxi hxj
  have hnd : (l.drop (i * bs)).Nodup := List.Nodup.sublist (List.drop_sublist _ _) hl
  have hsplit : (l.drop (i * bs)).take bs ++ (l.drop (i * bs)).drop bs = l.drop (i * bs) :=
    List.take_append_drop _ _
  rw [← hsplit] at hnd
  have hdisj := List.disjoint_of_nodup_append hnd
  have hle : i * bs + bs ≤ j * bs := by
    have h1 : (i + 1) * bs ≤ j * bs := Nat.mul_le_mul_right bs hij
    rw [Nat.succ_mul] at h1
    exact h1
  have hxj' : x ∈ l.drop (i * bs + bs) := by
    have h2 : x ∈ l.drop (j * bs) := List.take_subset _ _ hxj
    have h3 : l.drop (j * bs) = (l.drop (i * bs + bs)).drop (j * bs - (i * bs + bs)) := by
      rw [List.drop_drop]
      congr 1
      omega
    rw [h3] at h2
    exact List.drop_subset _ _ h2
  rw [List.drop_drop] at hdisj
  exact hdisj hxi hxj'

/-- C10: the internal index array of the batch provider is always a
permutation of `0 .. num_samples - 1`: construction establishes the
invariant for any shuffle outcome that permutes the initial `arange`, and
`on_epoch_end` preserves it (a shuffling call replaces the array by a
permutation of itself, a non-shuffling call leaves it unchanged).  Under the
invariant, the batches at indices `0 .. length() - 1` of one epoch are
pairwise disjoint, duplicate-free, and together select exactly
`length() * batch_size` distinct item positions. -/
theorem indexes_permutation_invariant :
    (∀ (paths : List String) (bs : Nat) (sh : Bool) (sigma : List Nat),
      sigma.Perm (List.range paths.length) →
      (AzureImageDataGenerator.init paths bs sh sigma).indexes.Perm
        (List.range paths.length)) ∧
    (∀ (g : AzureImageDataGenerator) (sigma : List Nat),
      g.indexes.Perm (List.range g.image_paths.length) →
      sigma.Perm g.indexes →
      (g.on_epoch_end sigma).indexes.Perm (List.range g.image_paths.length)) ∧
    (∀ g : AzureImageDataGenerator,
      g.indexes.Perm (List.range g.image_paths.length) →
      ((List.range g.len).flatMap g.batchIndexes).Nodup ∧
      ((List.range g.len).flatMap g.batchIndexes).length = g.len * g.batch_size ∧
      (∀ i j, i < g.len → j < g.len → i ≠ j →
        ∀ x, x ∈ g.batchIndexes i → x ∉ g.batchIndexes j)) := by
  refine ⟨?_, ?_, ?_⟩
  · intro paths bs sh sigma hsig
    cases sh with
    | false =>
        simp only [AzureImageDataGenerator.init, AzureImageDataGenerator.on_epoch_end, if_neg]
        exact List.Perm.refl _
    | true =>
        simpa only [AzureImageDataGenerator.init, AzureImageDataGenerator.on_epoch_end,
          if_pos] using hsig
  · intro g sigma hg hsig
    unfold AzureImageDataGenerator.on_epoch_end
    cases hsh : g.shuffle with
    | false => simpa using hg
    | true => simpa using hsig.trans hg
  · intro g hperm
    have hndup : g.indexes.Nodup := (List.Perm.nodup_iff hperm).mpr (List.nodup_range _)
    have hlen_idx : g.indexes.length = g.image_paths.length :=
      hperm.length_eq.trans (List.length_range _)
    have hjoin : (List.range g.len).flatMap g.batchIndexes
        = g.indexes.take (g.len * g.batch_size) := by
      exact range_flatMap_slices g.indexes g.batch_size g.len
    refine ⟨?_, ?_, ?_⟩
    · rw [hjoin]
      exact List.Nodup.sublist (List.take_sublist _ _) hndup
    · rw [hjoin, List.length_take, hlen_idx]
      exact Nat.min_eq_left (Nat.div_mul_le_self _ _)
    · intro i j hi hj hne x hxi hxj
      rcases hne.lt_or_lt with h | h
      · exact slices_disjoint_of_nodup hndup g.batch_size h x hxi hxj
      · exact slices_disjoint_of_nodup hndup g.batch_size h x hxj hxi

/-- C10 witness: a four-item shuffling generator constructed with the
concrete shuffle outcome `[2, 0, 3, 1]` satisfies the permutation invariant,
and its two epoch batches are jointly duplicate-free. -/
theorem indexes_permutation_invariant_witness :
    (AzureImageDataGenerator.init ["a", "b", "c", "d"] 2 true [2, 0, 3, 1]).indexes.Perm
      (List.range 4) ∧
    ((List.range (AzureImageDataGenerator.init ["a", "b", "c", "d"] 2 true
        [2, 0, 3, 1]).len).flatMap
      (AzureImageDataGenerator.init ["a", "b", "c", "d"] 2 true [2, 0, 3, 1]).batchIndexes).Nodup := by
  have h1 := indexes_permutation_invariant.1 ["a", "b", "c", "d"] 2 true [2, 0, 3, 1]
    (by decide)
  exact ⟨h1, (indexes_permutation_invariant.2.2 _ h1).1⟩

end BicepML
